import Mathlib

/-!
# Verification of the Ksenia Lares sensor-state derivation layer

Shallow embedding of `custom_components/ksenia_lares/sensor.py`:
the category-specific state reducers run in `KseniaSensorEntity.__init__`
and `KseniaSensorEntity.async_update`, the catalog construction in
`async_setup_entry`, and the refresh driver.

Raw telemetry values are modelled by the JSON-like type `Value`; Python
numbers (both int and float) are modelled by the exact decimal type
`Dec` (integer mantissa over a power-of-ten denominator, kept in
canonical form), so decimal-string parsing is exact and no
floating-point rounding is modelled — the code only ever parses decimal
strings, sums the results and compares them with zero, all of which are
exact decimal operations.  Python exceptions are modelled explicitly
with `Except PyErr`.  Error-level log emissions of the reducers are
counted (`Nat`), since the spec distinguishes "nulled silently" from
"nulled with an error log".
-/

set_option autoImplicit false

namespace Ksenia

/-- An exact decimal number `num / 10 ^ exp`.  Values built through
`Dec.make` are canonical (trailing factors of ten cancelled), so
structural equality coincides with numeric equality for them. -/
structure Dec where
  num : Int
  exp : Nat
  deriving Repr, DecidableEq

/-- Cancel factors of ten: `fuel` bounds the loop (the exponent always
suffices). -/
def stripTens (fuel : Nat) (m : Int) (e : Nat) : Int × Nat :=
  match fuel with
  | 0 => (m, e)
  | fuel' + 1 =>
    if e = 0 then (m, e)
    else if m % 10 = 0 then stripTens fuel' (m / 10) (e - 1)
    else (m, e)

/-- Canonical constructor: `make m e` is the decimal `m / 10 ^ e`
(`e` may be negative, meaning multiplication by `10 ^ (-e)`). -/
def Dec.make (m : Int) (e : Int) : Dec :=
  if m = 0 then ⟨0, 0⟩
  else if e < 0 then ⟨m * (10 : Int) ^ (-e).toNat, 0⟩
  else
    let p := stripTens e.toNat m e.toNat
    ⟨p.1, p.2⟩

/-- The integer `n` as a decimal. -/
def Dec.ofInt (n : Int) : Dec := Dec.make n 0

/-- Exact decimal addition (Python float `+` without rounding). -/
def Dec.add (a b : Dec) : Dec :=
  Dec.make (a.num * (10 : Int) ^ b.exp + b.num * (10 : Int) ^ a.exp)
    (a.exp + b.exp)

/-- `0 < d` (the denominator is positive, so only the sign of the
mantissa matters). -/
def Dec.isPos (d : Dec) : Bool := decide (0 < d.num)

/-- `d ≠ 0` as Python truthiness of a float. -/
def Dec.isNonzero (d : Dec) : Bool := decide (d.num ≠ 0)

/-- Abbreviation for writing concrete decimals in statements:
`dec 125 1` is `12.5`. -/
def dec (m : Int) (e : Nat) : Dec := Dec.make m e

/-- A decoded telemetry value, as handed to the integration by the
WebSocket manager: the JSON-ish universe of Python values the code
manipulates (None, bool, number, str, list, dict). -/
inductive Value where
  | vnull
  | vbool (b : Bool)
  | vnum (q : Dec)
  | vstr (s : String)
  | vlist (xs : List Value)
  | vdict (fs : List (String × Value))
  deriving Repr

/-- A record as a Python dict: association list of string keys.  Python
dicts have unique keys; all records used below keep keys distinct. -/
abbrev Record := List (String × Value)

/-- Modelled Python exceptions (only the classes the embedded code can
actually raise are distinguished). -/
inductive PyErr where
  | typeError
  | attributeError
  | valueError
  | keyError
  | indexError
  deriving Repr, DecidableEq

/-- `d[k]` lookup returning the first binding of `k` (Python dicts hold
at most one). -/
def dictGet (fs : Record) (k : String) : Option Value :=
  (fs.find? (fun p => p.1 == k)).map (·.2)

/-- `{**d, k: v}`: Python dict update keeps an existing key at its
original insertion position, otherwise appends the new key at the end. -/
def dictSet (fs : Record) (k : String) (v : Value) : Record :=
  if fs.any (fun p => p.1 == k) then
    fs.map (fun p => if p.1 == k then (k, v) else p)
  else fs ++ [(k, v)]

/-- Python truthiness (`if x:`): `None`, `False`, `0`, `""`, `[]`, `{}`
are falsy, everything else truthy. -/
def pyTruthy : Value → Bool
  | .vnull => false
  | .vbool b => b
  | .vnum q => q.isNonzero
  | .vstr s => !s.isEmpty
  | .vlist xs => !xs.isEmpty
  | .vdict fs => !fs.isEmpty

mutual
/-- Python `==` between decoded values.  `vnum` already unifies int and
float, so `1 == 1.0` holds; `True == 1` and dict order-insensitivity are
not modelled (never exercised: record `ID`s are scalars). -/
def Value.pyEq : Value → Value → Bool
  | .vnull, .vnull => true
  | .vbool a, .vbool b => a == b
  | .vnum a, .vnum b => a == b
  | .vstr a, .vstr b => a == b
  | .vlist xs, .vlist ys => pyEqList xs ys
  | .vdict xs, .vdict ys => pyEqDict xs ys
  | _, _ => false

/-- Elementwise Python `==` on lists. -/
def pyEqList : List Value → List Value → Bool
  | [], [] => true
  | x :: xs, y :: ys => Value.pyEq x y && pyEqList xs ys
  | _, _ => false

/-- Entrywise Python `==` on dicts (in insertion order). -/
def pyEqDict : List (String × Value) → List (String × Value) → Bool
  | [], [] => true
  | (k, x) :: xs, (l, y) :: ys => k == l && Value.pyEq x y && pyEqDict xs ys
  | _, _ => false
end

/-- `x.get(k, d)`: on a dict returns the binding or the default, on any
other value raises `AttributeError` (no `.get` attribute). -/
def pyGetD : Value → String → Value → Except PyErr Value
  | .vdict fs, k, d => .ok ((dictGet fs k).getD d)
  | _, _, _ => .error .attributeError

/-- `x[-1]`: last element of a list, last character of a string;
`KeyError` on a dict, `TypeError` otherwise.  (The callers below guard
with truthiness, so the empty cases are unreachable there.) -/
def pyLastIndex : Value → Except PyErr Value
  | .vlist xs =>
      match xs.getLast? with
      | some v => .ok v
      | none => .error .indexError
  | .vstr s =>
      match s.toList.getLast? with
      | some c => .ok (.vstr (String.mk [c]))
      | none => .error .indexError
  | .vdict _ => .error .keyError
  | _ => .error .typeError

/-- `for x in v`: lists yield elements, strings yield one-character
strings, dicts yield their keys, everything else raises `TypeError`. -/
def pyIter : Value → Except PyErr (List Value)
  | .vlist xs => .ok xs
  | .vstr s => .ok (s.toList.map (fun c => .vstr (String.mk [c])))
  | .vdict fs => .ok (fs.map (fun p => .vstr p.1))
  | _ => .error .typeError

/-- Digit run to a natural number (ASCII digits). -/
def digitsToNat (cs : List Char) : Nat :=
  cs.foldl (fun a c => a * 10 + (c.toNat - 48)) 0

/-- Python `float(<str>)` grammar on the already-trimmed character list:
optional sign, digits with at most one `.` (at least one digit
somewhere), optional exponent.  `inf`/`nan`, `_` digit separators and
non-ASCII decimal digits are not modelled (never exercised by the
records this integration handles). -/
def parseFloatChars (cs0 : List Char) : Option Dec :=
  let sgnCs : Int × List Char :=
    match cs0 with
    | '+' :: rest => (1, rest)
    | '-' :: rest => (-1, rest)
    | _ => (1, cs0)
  let ip := sgnCs.2.span Char.isDigit
  let fp : List Char × List Char :=
    match ip.2 with
    | '.' :: rest => rest.span Char.isDigit
    | _ => ([], ip.2)
  if ip.1.isEmpty && fp.1.isEmpty then none
  else
    let m : Int :=
      sgnCs.1 * ((digitsToNat ip.1 * 10 ^ fp.1.length + digitsToNat fp.1 : Nat) : Int)
    match fp.2 with
    | [] => some (Dec.make m (fp.1.length : Int))
    | e :: rest =>
      if e = 'e' ∨ e = 'E' then
        let esgn : Bool × List Char :=
          match rest with
          | '+' :: r => (true, r)
          | '-' :: r => (false, r)
          | _ => (true, rest)
        let ed := esgn.2.span Char.isDigit
        if ed.1.isEmpty ∨ !ed.2.isEmpty then none
        else
          some (Dec.make m ((fp.1.length : Int) +
            (if esgn.1 then -(digitsToNat ed.1 : Int) else (digitsToNat ed.1 : Int))))
      else none

/-- Surrounding-whitespace strip (structural version of `str.strip()`
with no argument, as `float` applies it). -/
def pyStrip (s : String) : String :=
  String.mk (((s.toList.dropWhile Char.isWhitespace).reverse.dropWhile
    Char.isWhitespace).reverse)

/-- Python `float` on a string: surrounding whitespace is stripped, then
the numeric grammar applies; `none` models a raised `ValueError`. -/
def parseFloat? (s : String) : Option Dec :=
  parseFloatChars (pyStrip s).toList

/-- `s.replace("+", "")`: removes every `+` character, wherever it
occurs (not only a leading sign). -/
def stripPlusAll (s : String) : String :=
  String.mk (s.toList.filter (fun c => c ≠ '+'))

/-- Helper for `s.replace('.', '', 1)`: drop the first `.` only. -/
def removeFirstDotChars : List Char → List Char
  | [] => []
  | c :: cs => if c = '.' then cs else c :: removeFirstDotChars cs

/-- `s.replace('.', '', 1)`: the string with its first `.` removed. -/
def removeFirstDot (s : String) : String :=
  String.mk (removeFirstDotChars s.toList)

/-- Python `str.isdigit` restricted to ASCII: non-empty and all
characters `0`-`9` (the Unicode-digit extension is not modelled). -/
def pyIsDigit (s : String) : Bool :=
  !s.isEmpty && s.toList.all Char.isDigit

/-- Python `float(x)` on an arbitrary decoded value: numbers pass
through, bools coerce, strings parse (`ValueError` on failure),
containers and `None` raise `TypeError`. -/
def pyFloat : Value → Except PyErr Dec
  | .vnum q => .ok q
  | .vbool b => .ok (Dec.ofInt (if b then 1 else 0))
  | .vstr s =>
      match parseFloat? s with
      | some q => .ok q
      | none => .error .valueError
  | _ => .error .typeError

/-- `r.get(k)` on a record (known dict): `None` when absent. -/
def recGet (r : Record) (k : String) : Value :=
  (dictGet r k).getD .vnull

/-- `r.get(k, d)` on a record (known dict). -/
def recGetD (r : Record) (k : String) (d : Value) : Value :=
  (dictGet r k).getD d

/-- Wrap an optional parsed number back into a stored value
(`None` ↦ null). -/
def optQ : Option Dec → Value
  | some q => .vnum q
  | none => .vnull

/-- One temperature field of the `system` branch, inside the shared
`try`:
`float(temp_data.get(k, "0").replace("+", "")) if temp_data.get(k) else None`.
`temp_data` itself may be any value (`sensor_data.get("TEMP", {})`), so
the `.get` can raise; a non-string field raises on `.replace`; a parse
failure raises `ValueError`.  All of these propagate to the shared
handler. -/
def tempField (td : Value) (k : String) : Except PyErr (Option Dec) :=
  match pyGetD td k .vnull with
  | .error e => .error e
  | .ok v =>
    if pyTruthy v then
      match pyGetD td k (.vstr "0") with
      | .error e => .error e
      | .ok v' =>
        match v' with
        | .vstr s =>
          match parseFloat? (stripPlusAll s) with
          | some q => .ok (some q)
          | none => .error .valueError
        | _ => .error .attributeError
    else .ok none

/-- The `system` branch's shared `try`/`except` around both temperature
conversions: any failure logs once and nulls *both* fields (the
`except` clause overwrites `temp_in` and `temp_out` together).  Returns
`(temp_in, temp_out, an error was logged)`. -/
def systemTemps (r : Record) : Option Dec × Option Dec × Bool :=
  let td := recGetD r "TEMP" (.vdict [])
  match tempField td "IN" with
  | .error _ => (none, none, true)
  | .ok ti =>
    match tempField td "OUT" with
    | .error _ => (none, none, true)
    | .ok to_ => (ti, to_, false)

/-- State reducer, `system` category (constructor lines 69-80 and the
identical refresh branch): state is the raw `ARM` field defaulting to
`"unknown"`; attributes are exactly `temp_in`/`temp_out`.  Third
component counts error logs. -/
def reduceSystem (r : Record) : Value × Record × Nat :=
  let ts := systemTemps r
  (recGetD r "ARM" (.vstr "unknown"),
   [("temp_in", optQ ts.1), ("temp_out", optQ ts.2.1)],
   if ts.2.2 then 1 else 0)

/-- The powerlines digit-gate: `s.replace('.', '', 1).isdigit()`. -/
def plAccept (s : String) : Bool :=
  pyIsDigit (removeFirstDot s)

/-- One powerlines field, its own `try`:
`float(p) if p and p.replace('.', '', 1).isdigit() else None`.
A non-string truthy value raises on `.replace` (caught, logged); a
gated string is then parsed by `float`.  Returns
`(value, an error was logged)`. -/
def plParse (v : Value) : Option Dec × Bool :=
  if pyTruthy v then
    match v with
    | .vstr s =>
      if plAccept s then
        match parseFloat? s with
        | some q => (some q, false)
        | none => (none, true)
      else (none, false)
    | _ => (none, true)
  else (none, false)

/-- State reducer, `powerlines` category (constructor lines 82-102 and
the identical refresh branch): state is the parsed `PCONS` when
present, else raw `STATUS` defaulting to `"unknown"`; attributes are
exactly `Consumo`/`Produzione`/`Status`. -/
def reducePowerlines (r : Record) : Value × Record × Nat :=
  let pc := plParse (recGet r "PCONS")
  let pp := plParse (recGet r "PPROD")
  ((match pc.1 with
    | some q => .vnum q
    | none => recGetD r "STATUS" (.vstr "unknown")),
   [("Consumo", optQ pc.1), ("Produzione", optQ pp.1),
    ("Status", recGetD r "STATUS" (.vstr "unknown"))],
   (if pc.2 then 1 else 0) + (if pp.2 then 1 else 0))

/-- Domus temperature, its own `try`:
`float(r.get("T", "0").replace("+", "")) if r.get("T") else None`. -/
def domusT (r : Record) : Option Dec × Bool :=
  let v := recGet r "T"
  if pyTruthy v then
    match recGetD r "T" (.vstr "0") with
    | .vstr s =>
      match parseFloat? (stripPlusAll s) with
      | some q => (some q, false)
      | none => (none, true)
    | _ => (none, true)
  else (none, false)

/-- Domus humidity, its own `try`:
`float(r.get("H", "0")) if r.get("H") else None` — note `float` is
applied to the raw value, with no sign-stripping. -/
def domusH (r : Record) : Option Dec × Bool :=
  let v := recGet r "H"
  if pyTruthy v then
    match pyFloat (recGetD r "H" (.vstr "0")) with
    | .ok q => (some q, false)
    | .error _ => (none, true)
  else (none, false)

/-- State reducer, `domus` category (constructor lines 104-117 and the
identical refresh branch): state is the parsed temperature when
present, else raw `STA` defaulting to `"unknown"`; attributes are the
whole record with `temperature` and `humidity` overlaid. -/
def reduceDomus (r : Record) : Value × Record × Nat :=
  let t := domusT r
  let h := domusH r
  ((match t.1 with
    | some q => .vnum q
    | none => recGetD r "STA" (.vstr "unknown")),
   dictSet (dictSet r "temperature" (optQ t.1)) "humidity" (optQ h.1),
   (if t.2 then 1 else 0) + (if h.2 then 1 else 0))

/-- One loop iteration of the partitions sum, its own `try`:
`total += float(record.get("ENC", 0))`.  The loop item may be any value
(so `.get` can raise) and `float` applies to the raw field; a caught
failure logs and leaves the total unchanged. -/
def encAdd (acc : Dec × Nat) (item : Value) : Dec × Nat :=
  match (match pyGetD item "ENC" (.vnum (Dec.ofInt 0)) with
         | .ok e => pyFloat e
         | .error e => .error e) with
  | .ok q => (acc.1.add q, acc.2)
  | .error _ => (acc.1, acc.2 + 1)

/-- The partitions total-consumption accumulation (lines 121-130).  The
indexing `stat[-1]`, the `.get("VAL", [])` on the last element and the
iteration over `VAL` happen *outside* any `try`, so an ill-shaped
`STAT` raises out of the reducer. -/
def partitionsTotal (r : Record) : Except PyErr (Dec × Nat) :=
  let stat := recGetD r "STAT" (.vlist [])
  if pyTruthy stat then
    match pyLastIndex stat with
    | .error e => .error e
    | .ok latest =>
      match pyGetD latest "VAL" (.vlist []) with
      | .error e => .error e
      | .ok vals =>
        match pyIter vals with
        | .error e => .error e
        | .ok items => .ok (items.foldl encAdd (Dec.ofInt 0, 0))
  else .ok (Dec.ofInt 0, 0)

/-- State reducer, `partitions` category (constructor lines 119-132 and
the identical refresh branch): state is the total when strictly
positive, else raw `STA` defaulting to `"unknown"`; attributes are the
whole record with `total_consumption` overlaid. -/
def reducePartitions (r : Record) : Except PyErr (Value × Record × Nat) :=
  match partitionsTotal r with
  | .error e => .error e
  | .ok tn =>
    .ok ((if tn.1.isPos then .vnum tn.1 else recGetD r "STA" (.vstr "unknown")),
         dictSet r "total_consumption" (.vnum tn.1),
         tn.2)

/-- State reducer for `zones` and any unrecognized category: raw `STA`
defaulting to `"unknown"`, attributes the record verbatim. -/
def reduceOther (r : Record) : Value × Record × Nat :=
  (recGetD r "STA" (.vstr "unknown"), r, 0)

/-- The full per-category State Reducer: the five-way branch shared by
`__init__` and `async_update` (the two sites are textually identical in
the source).  Only the partitions branch can raise. -/
def reduce (category : String) (r : Record) : Except PyErr (Value × Record × Nat) :=
  if category = "system" then .ok (reduceSystem r)
  else if category = "powerlines" then .ok (reducePowerlines r)
  else if category = "domus" then .ok (reduceDomus r)
  else if category = "partitions" then reducePartitions r
  else .ok (reduceOther r)

/-- `str.capitalize`: first character uppercased, the rest lowercased. -/
def pyCapitalize (s : String) : String :=
  match s.toList with
  | [] => ""
  | c :: cs => String.mk (c.toUpper :: cs.map Char.toLower)

/-- f-string rendering of a value (`str(x)`).  Strings render as
themselves and integers numerically; the float / container renderings
are simplified (no claim formats a non-scalar or non-integer id). -/
def pyFStr : Value → String
  | .vstr s => s
  | .vnum q => if q.exp = 0 then toString q.num else toString q.num ++ "e-" ++ toString q.exp
  | .vbool b => if b then "True" else "False"
  | .vnull => "None"
  | .vlist _ => "<list>"
  | .vdict _ => "<dict>"

/-- Python `a or b`: `a` when truthy, else `b`. -/
def pyOrV (a b : Value) : Value :=
  if pyTruthy a then a else b

/-- A `KseniaSensorEntity`: the ws-manager reference is not stored here
(the refresh driver below takes the manager explicitly). -/
structure Entity where
  sensorType : String
  id : Value
  name : Value
  state : Value
  attributes : Record
  deriving Repr

/-- `KseniaSensorEntity.__init__`: `sensor_data["ID"]` raises
`TypeError` on a non-dict and `KeyError` when `ID` is absent; the
display name is the `or`-chain over `NM`/`LBL`/`DES` with the generated
fallback; then the category branch (the State Reducer) runs. -/
def mkEntity (category : String) : Value → Except PyErr Entity
  | .vdict fs =>
    match dictGet fs "ID" with
    | none => .error .keyError
    | some idv =>
      match reduce category fs with
      | .error e => .error e
      | .ok red =>
        .ok ⟨category, idv,
             pyOrV (recGet fs "NM") (pyOrV (recGet fs "LBL") (pyOrV (recGet fs "DES")
               (.vstr ("Sensor " ++ pyCapitalize category ++ " " ++ pyFStr idv)))),
             red.1, red.2.1⟩
  | _ => .error .typeError

/-- `unique_id`: `f"{self._sensor_type}_{self._id}"`. -/
def uniqueId (e : Entity) : String :=
  e.sensorType ++ "_" ++ pyFStr e.id

/-- The WebSocket manager, reduced to the outcomes of its three async
fetches (each may raise). -/
structure WSManager where
  getDom : Except PyErr (List Value)
  getSensor : String → Except PyErr (List Value)
  getSystem : Except PyErr (List Value)

/-- One category's `for sensor in ...: entities.append(KseniaSensorEntity(...))`
loop: entity construction failures propagate. -/
def mkEntities (category : String) : List Value → Except PyErr (List Entity)
  | [] => .ok []
  | sd :: rest =>
    match mkEntity category sd with
    | .error e => .error e
    | .ok en =>
      match mkEntities category rest with
      | .error e => .error e
      | .ok es => .ok (en :: es)

/-- `async_setup_entry`: the five category snapshots are awaited in
source order with no exception handling anywhere — a raising fetch (or
a raising constructor) aborts the whole setup before
`async_add_entities` runs. -/
def setupEntry (ws : WSManager) : Except PyErr (List Entity) :=
  match ws.getDom with
  | .error e => .error e
  | .ok domus =>
  match mkEntities "domus" domus with
  | .error e => .error e
  | .ok de =>
  match ws.getSensor "POWER_LINES" with
  | .error e => .error e
  | .ok pls =>
  match mkEntities "powerlines" pls with
  | .error e => .error e
  | .ok pe =>
  match ws.getSensor "PARTITIONS" with
  | .error e => .error e
  | .ok parts =>
  match mkEntities "partitions" parts with
  | .error e => .error e
  | .ok te =>
  match ws.getSensor "ZONES" with
  | .error e => .error e
  | .ok zs =>
  match mkEntities "zones" zs with
  | .error e => .error e
  | .ok ze =>
  match ws.getSystem with
  | .error e => .error e
  | .ok sys =>
  match mkEntities "system" sys with
  | .error e => .error e
  | .ok se => .ok (de ++ pe ++ te ++ ze ++ se)

/-- The refresh scan
`for sensor in sensors: if sensor["ID"] == self._id: ...; break`:
returns the first record whose `ID` equals the entity's id;
`sensor["ID"]` raises `TypeError` on a non-dict element and `KeyError`
on a dict without `ID`. -/
def findFirst (idv : Value) : List Value → Except PyErr (Option Record)
  | [] => .ok none
  | .vdict fs :: rest =>
    match dictGet fs "ID" with
    | some sid =>
      if Value.pyEq sid idv then .ok (some fs) else findFirst idv rest
    | none => .error .keyError
  | _ :: _ => .error .typeError

/-- The body of `async_update` once the category snapshot is in hand:
locate the matching record, re-run the reducer and overwrite
`state`/`attributes`; when no record matches, nothing is assigned.
Also returns the number of error logs emitted (0 on the no-match
path). -/
def updateEntity (e : Entity) (snapshot : List Value) : Except PyErr (Entity × Nat) :=
  match findFirst e.id snapshot with
  | .error er => .error er
  | .ok none => .ok (e, 0)
  | .ok (some fs) =>
    match reduce e.sensorType fs with
    | .error er => .error er
    | .ok red => .ok ({ e with state := red.1, attributes := red.2.1 }, red.2.2)

/-- Which fetch `async_update` performs for each category (`zones` and
unrecognized categories go through `getSensor` with the uppercased
tag). -/
def fetchFor (ws : WSManager) (category : String) : Except PyErr (List Value) :=
  if category = "system" then ws.getSystem
  else if category = "powerlines" then ws.getSensor "POWER_LINES"
  else if category = "domus" then ws.getDom
  else if category = "partitions" then ws.getSensor "PARTITIONS"
  else ws.getSensor category.toUpper

/-- `async_update` in full: fetch, then scan-and-reduce. -/
def asyncUpdate (ws : WSManager) (e : Entity) : Except PyErr (Entity × Nat) :=
  match fetchFor ws e.sensorType with
  | .error er => .error er
  | .ok snap => updateEntity e snap

/-- A sequence of refresh ticks, each against the snapshot the fetch
returned for it (log counts discarded). -/
def refreshes (e : Entity) : List (List Value) → Except PyErr Entity
  | [] => .ok e
  | snap :: rest =>
    match updateEntity e snap with
    | .error er => .error er
    | .ok en => refreshes en.1 rest

/-- Did an `Except` computation complete without raising? -/
def isOk {ε α : Type} : Except ε α → Bool
  | .ok _ => true
  | .error _ => false

/-- The shape the partitions branch needs from `STAT` in order not to
raise: when `STAT` is truthy it must be a list whose last element is a
mapping whose `VAL` (after the `[]` default) is again a list. -/
def statWellShapedB (r : Record) : Bool :=
  let stat := recGetD r "STAT" (.vlist [])
  if pyTruthy stat then
    match stat with
    | .vlist xs =>
      match xs.getLast? with
      | some (.vdict fs) =>
        match (dictGet fs "VAL").getD (.vlist []) with
        | .vlist _ => true
        | _ => false
      | _ => false
    | _ => false
  else true

/-- The parsed `ENC` contribution of one `VAL` entry: `none` when the
lookup or the conversion fails (that entry is skipped by the sum). -/
def encParsed (item : Value) : Option Dec :=
  match pyGetD item "ENC" (.vnum (Dec.ofInt 0)) with
  | .ok e =>
    match pyFloat e with
    | .ok q => some q
    | .error _ => none
  | .error _ => none

/-- The sum of the parsed `ENC` fields over the entries of a `VAL`
array (entries whose parse fails contribute nothing). -/
def sumENC (vs : List Value) : Dec :=
  vs.foldl (fun a v =>
    match encParsed v with
    | some q => a.add q
    | none => a) (Dec.ofInt 0)

/-- Re-running the reducer on a matched record and overwriting
`state`/`attributes` (the matched arm of the refresh loop). -/
def applyReduce (e : Entity) (fs : Record) : Except PyErr (Entity × Nat) :=
  match reduce e.sensorType fs with
  | .ok red => .ok ({ e with state := red.1, attributes := red.2.1 }, red.2.2)
  | .error er => .error er

/-- Fixture: a manager whose domus fetch succeeds with one record but
whose sensor-category fetches all raise. -/
def wsOneFail : WSManager :=
  { getDom := .ok [.vdict [("ID", .vstr "d1"), ("NM", .vstr "Probe")]]
    getSensor := fun _ => .error .typeError
    getSystem := .ok [] }

/-- Fixture: the spec's partitions example record,
`STAT=[{..},{"VAL":[{"ENC":"1.5"},{"ENC":"2.5"}]}]`. -/
def partRecEx : Record :=
  [("ID", .vstr "1"),
   ("STAT", .vlist [.vdict [("OLD", .vstr "y")],
     .vdict [("VAL", .vlist [.vdict [("ENC", .vstr "1.5")],
                             .vdict [("ENC", .vstr "2.5")]])]]),
   ("STA", .vstr "ok")]


theorem reduce_system_eq (r : Record) : reduce "system" r = .ok (reduceSystem r) := rfl

theorem reduce_powerlines_eq (r : Record) :
    reduce "powerlines" r = .ok (reducePowerlines r) := rfl

theorem reduce_domus_eq (r : Record) : reduce "domus" r = .ok (reduceDomus r) := rfl

theorem reduce_partitions_eq (r : Record) :
    reduce "partitions" r = reducePartitions r := rfl

theorem findFirst_no_match (idv : Value) (snapshot : List Value)
    (h : ∀ v ∈ snapshot, ∃ gs : Record, v = .vdict gs ∧
           ∃ w, dictGet gs "ID" = some w ∧ Value.pyEq w idv = false) :
    findFirst idv snapshot = .ok none := by
  induction snapshot with
  | nil => rfl
  | cons v rest ih =>
    obtain ⟨gs, rfl, w, hw, hne⟩ := h v (List.mem_cons_self v rest)
    simp only [findFirst, hw, hne, Bool.false_eq_true, if_false]
    exact ih (fun u hu => h u (List.mem_cons_of_mem _ hu))

/-- C7: for every entity and refresh invocation, if the re-fetched
category snapshot contains no record whose `ID` equals the entity's
`ID` (every snapshot record being a mapping carrying an `ID`), the
refresh is a silent no-op: it returns the entity with its previous
state and attributes exactly unchanged, raises nothing and logs
nothing. -/
theorem refresh_no_match_is_noop (e : Entity) (snapshot : List Value)
    (h : ∀ v ∈ snapshot, ∃ gs : Record, v = .vdict gs ∧
           ∃ w, dictGet gs "ID" = some w ∧ Value.pyEq w e.id = false) :
    updateEntity e snapshot = .ok (e, 0) := by
  unfold updateEntity
  rw [findFirst_no_match e.id snapshot h]

theorem refresh_no_match_is_noop_witness :
    updateEntity ⟨"zones", .vstr "1", .vstr "Z", .vstr "idle", [("ID", .vstr "1")]⟩
      [.vdict [("ID", .vstr "2")]] =
      .ok (⟨"zones", .vstr "1", .vstr "Z", .vstr "idle", [("ID", .vstr "1")]⟩, 0) :=
  refresh_no_match_is_noop _ _ (fun v hv => by
    rw [List.mem_singleton] at hv
    subst hv
    exact ⟨[("ID", .vstr "2")], rfl, .vstr "2", rfl, rfl⟩)

theorem findFirst_append_no_match (idv : Value) (xs rest : List Value)
    (h : ∀ v ∈ xs, ∃ gs : Record, v = .vdict gs ∧
           ∃ w, dictGet gs "ID" = some w ∧ Value.pyEq w idv = false) :
    findFirst idv (xs ++ rest) = findFirst idv rest := by
  induction xs with
  | nil => rfl
  | cons v tail ih =>
    obtain ⟨gs, rfl, w, hw, hne⟩ := h v (List.mem_cons_self v tail)
    simp only [List.cons_append, findFirst, hw, hne, Bool.false_eq_true, if_false]
    exact ih (fun u hu => h u (List.mem_cons_of_mem _ hu))

/-- C10: when the re-fetched snapshot contains more than one record
whose `ID` equals the entity's `ID`, the refresh derives the new state
and attributes from the first such record in sequence order — the
records `ys` after the first match are ignored entirely. -/
theorem refresh_first_match_wins (e : Entity) (xs ys : List Value) (fs : Record) (w : Value)
    (hxs : ∀ v ∈ xs, ∃ gs : Record, v = .vdict gs ∧
             ∃ u, dictGet gs "ID" = some u ∧ Value.pyEq u e.id = false)
    (hid : dictGet fs "ID" = some w) (hm : Value.pyEq w e.id = true) :
    updateEntity e (xs ++ .vdict fs :: ys) = applyReduce e fs := by
  unfold updateEntity applyReduce
  rw [findFirst_append_no_match e.id xs (.vdict fs :: ys) hxs]
  simp only [findFirst, hid, hm, if_true]
  cases reduce e.sensorType fs with
  | error er => rfl
  | ok red => rfl

theorem refresh_first_match_wins_witness :
    updateEntity ⟨"zones", .vstr "1", .vstr "Z", .vstr "old", []⟩
      [.vdict [("ID", .vstr "0")], .vdict [("ID", .vstr "1"), ("STA", .vstr "A")],
       .vdict [("ID", .vstr "1"), ("STA", .vstr "B")]] =
      .ok (⟨"zones", .vstr "1", .vstr "Z", .vstr "A",
            [("ID", .vstr "1"), ("STA", .vstr "A")]⟩, 0) :=
  refresh_first_match_wins ⟨"zones", .vstr "1", .vstr "Z", .vstr "old", []⟩
    [.vdict [("ID", .vstr "0")]] [.vdict [("ID", .vstr "1"), ("STA", .vstr "B")]]
    [("ID", .vstr "1"), ("STA", .vstr "A")] (.vstr "1")
    (fun v hv => by
      rw [List.mem_singleton] at hv
      subst hv
      exact ⟨[("ID", .vstr "0")], rfl, .vstr "0", rfl, rfl⟩)
    rfl rfl

theorem updateEntity_preserves (e : Entity) (snap : List Value) (x : Entity × Nat)
    (h : updateEntity e snap = .ok x) :
    x.1.sensorType = e.sensorType ∧ x.1.id = e.id := by
  unfold updateEntity at h
  split at h
  · cases h
  · cases h; exact ⟨rfl, rfl⟩
  · split at h
    · cases h
    · cases h; exact ⟨rfl, rfl⟩

/-- C9: `unique_id` is the category tag, `"_"`, and the record's `ID`,
both at construction and after any number of refresh invocations — the
refresh driver never writes the category or `ID` fields. -/
theorem unique_id_stable :
    (∀ cat fs e, mkEntity cat (.vdict fs) = .ok e →
       e.sensorType = cat ∧ dictGet fs "ID" = some e.id ∧
       uniqueId e = cat ++ "_" ++ pyFStr e.id) ∧
    (∀ e ss e', refreshes e ss = .ok e' →
       e'.sensorType = e.sensorType ∧ e'.id = e.id ∧ uniqueId e' = uniqueId e) := by
  constructor
  · intro cat fs e h
    unfold mkEntity at h
    dsimp only at h
    split at h
    · cases h
    · rename_i idv heq
      split at h
      · cases h
      · cases h; exact ⟨rfl, heq, rfl⟩
  · intro e ss
    induction ss generalizing e with
    | nil => intro e' h; cases h; exact ⟨rfl, rfl, rfl⟩
    | cons snap rest ih =>
      intro e' h
      unfold refreshes at h
      cases hu : updateEntity e snap with
      | error er => rw [hu] at h; cases h
      | ok en =>
        rw [hu] at h
        obtain ⟨h1, h2⟩ := updateEntity_preserves e snap en hu
        obtain ⟨g1, g2, g3⟩ := ih en.1 e' h
        refine ⟨g1.trans h1, g2.trans h2, ?_⟩
        rw [g3]
        unfold uniqueId
        rw [h1, h2]

theorem unique_id_stable_witness :
    mkEntity "zones" (.vdict [("ID", .vstr "7"), ("NM", .vstr "Door")]) =
      .ok ⟨"zones", .vstr "7", .vstr "Door", .vstr "unknown",
           [("ID", .vstr "7"), ("NM", .vstr "Door")]⟩ ∧
    uniqueId ⟨"zones", .vstr "7", .vstr "Door", .vstr "unknown",
           [("ID", .vstr "7"), ("NM", .vstr "Door")]⟩ = "zones" ++ "_" ++ pyFStr (.vstr "7") ∧
    (∀ e', refreshes ⟨"zones", .vstr "7", .vstr "Door", .vstr "unknown",
           [("ID", .vstr "7"), ("NM", .vstr "Door")]⟩
        [[.vdict [("ID", .vstr "7"), ("STA", .vstr "open")]]] = .ok e' →
       uniqueId e' = uniqueId ⟨"zones", .vstr "7", .vstr "Door", .vstr "unknown",
           [("ID", .vstr "7"), ("NM", .vstr "Door")]⟩) :=
  ⟨rfl,
   (unique_id_stable.1 "zones" [("ID", .vstr "7"), ("NM", .vstr "Door")] _ rfl).2.2,
   fun e' h => (unique_id_stable.2 _ _ e' h).2.2⟩

theorem partitionsTotal_isOk (r : Record) (h : statWellShapedB r = true) :
    ∃ tn, partitionsTotal r = .ok tn := by
  simp only [statWellShapedB] at h
  simp only [partitionsTotal]
  by_cases ht : pyTruthy (recGetD r "STAT" (.vlist [])) = true
  · rw [if_pos ht] at h ⊢
    cases hs : recGetD r "STAT" (.vlist []) with
    | vlist xs =>
      rw [hs] at h
      dsimp only at h
      cases hl : xs.getLast? with
      | none => rw [hl] at h; simp at h
      | some lv =>
        rw [hl] at h
        cases lv with
        | vdict gs =>
          dsimp only at h
          cases hv : (dictGet gs "VAL").getD (.vlist []) with
          | vlist vs =>
            refine ⟨vs.foldl encAdd (Dec.ofInt 0, 0), ?_⟩
            simp only [pyLastIndex, hl, pyGetD, hv, pyIter]
          | vnull => rw [hv] at h; simp at h
          | vbool b => rw [hv] at h; simp at h
          | vnum q => rw [hv] at h; simp at h
          | vstr s => rw [hv] at h; simp at h
          | vdict gs2 => rw [hv] at h; simp at h
        | vnull => simp at h
        | vbool b => simp at h
        | vnum q => simp at h
        | vstr s => simp at h
        | vlist ys => simp at h
    | vnull => rw [hs] at h; simp at h
    | vbool b => rw [hs] at h; simp at h
    | vnum q => rw [hs] at h; simp at h
    | vstr s => rw [hs] at h; simp at h
    | vdict gs => rw [hs] at h; simp at h
  · rw [if_neg ht]
    exact ⟨(Dec.ofInt 0, 0), rfl⟩

theorem reducePartitions_isOk (r : Record) (h : statWellShapedB r = true) :
    isOk (reducePartitions r) = true := by
  obtain ⟨tn, htn⟩ := partitionsTotal_isOk r h
  unfold reducePartitions
  rw [htn]
  rfl

/-- C1 (amended): for every category and every record whose `STAT`
field — when present and truthy — is a list whose last element is a
mapping with a list-shaped `VAL`, the State Reducer completes without
raising; and every caught numeric-parse failure yields a null value
(both system temperatures, each powerline field, each domus field) or
leaves the partitions sum unchanged, rather than aborting the
reduction.  (The unamended claim, over all records, is refuted by
`reduce_raises_on_ill_shaped_stat`.) -/
theorem stateReducer_no_raise (cat : String) (r : Record)
    (h : statWellShapedB r = true) :
    isOk (reduce cat r) = true ∧
    ((systemTemps r).2.2 = true → (systemTemps r).1 = none ∧ (systemTemps r).2.1 = none) ∧
    (∀ v, (plParse v).2 = true → (plParse v).1 = none) ∧
    ((domusT r).2 = true → (domusT r).1 = none) ∧
    ((domusH r).2 = true → (domusH r).1 = none) ∧
    (∀ a n item, (encAdd (a, n) item).2 ≠ n → (encAdd (a, n) item).1 = a) := by
  refine ⟨?_, ?_, ?_, ?_, ?_, ?_⟩
  · unfold reduce
    by_cases h1 : cat = "system"
    · rw [if_pos h1]; rfl
    rw [if_neg h1]
    by_cases h2 : cat = "powerlines"
    · rw [if_pos h2]; rfl
    rw [if_neg h2]
    by_cases h3 : cat = "domus"
    · rw [if_pos h3]; rfl
    rw [if_neg h3]
    by_cases h4 : cat = "partitions"
    · rw [if_pos h4]; exact reducePartitions_isOk r h
    rw [if_neg h4]; rfl
  · intro hl
    simp only [systemTemps] at hl ⊢
    cases h1 : tempField (recGetD r "TEMP" (.vdict [])) "IN" with
    | error e1 => exact ⟨rfl, rfl⟩
    | ok ti =>
      cases h2 : tempField (recGetD r "TEMP" (.vdict [])) "OUT" with
      | error e2 => exact ⟨rfl, rfl⟩
      | ok to_ => rw [h1, h2] at hl; simp at hl
  · intro v hv
    unfold plParse at hv ⊢
    by_cases ht : pyTruthy v = true
    · rw [if_pos ht] at hv ⊢
      cases v with
      | vstr s =>
        dsimp only at hv ⊢
        by_cases ha : plAccept s = true
        · rw [if_pos ha] at hv ⊢
          cases hp : parseFloat? s with
          | some q => rw [hp] at hv; simp at hv
          | none => rfl
        · rw [if_neg ha] at hv; simp at hv
      | vnull => rfl
      | vbool b => rfl
      | vnum q => rfl
      | vlist xs => rfl
      | vdict gs => rfl
    · rw [if_neg ht] at hv; simp at hv
  · intro hv
    simp only [domusT] at hv ⊢
    by_cases ht : pyTruthy (recGet r "T") = true
    · rw [if_pos ht] at hv ⊢
      cases hg : recGetD r "T" (.vstr "0") with
      | vstr s =>
        rw [hg] at hv
        dsimp only at hv ⊢
        cases hp : parseFloat? (stripPlusAll s) with
        | some q => rw [hp] at hv; simp at hv
        | none => rfl
      | vnull => rfl
      | vbool b => rfl
      | vnum q => rfl
      | vlist xs => rfl
      | vdict gs => rfl
    · rw [if_neg ht] at hv; simp at hv
  · intro hv
    simp only [domusH] at hv ⊢
    by_cases ht : pyTruthy (recGet r "H") = true
    · rw [if_pos ht] at hv ⊢
      cases hf : pyFloat (recGetD r "H" (.vstr "0")) with
      | ok q => rw [hf] at hv; simp at hv
      | error e => rfl
    · rw [if_neg ht] at hv; simp at hv
  · intro a n item hne
    unfold encAdd at hne ⊢
    cases hx : (match pyGetD item "ENC" (.vnum (Dec.ofInt 0)) with
                | .ok e => pyFloat e
                | .error e => .error e) with
    | ok q => rw [hx] at hne; exact absurd rfl hne
    | error e => rfl

theorem stateReducer_no_raise_witness :
    statWellShapedB partRecEx = true ∧ isOk (reduce "partitions" partRecEx) = true :=
  ⟨rfl, (stateReducer_no_raise "partitions" partRecEx rfl).1⟩

/-- C1 counterexample: the partitions branch raises (`AttributeError`)
on a record whose `STAT` is a list of strings — `stat[-1]` is the
string and its `.get("VAL", [])` is evaluated outside any `try` — so
the State Reducer does not complete for every raw record input. -/
theorem reduce_raises_on_ill_shaped_stat :
    reduce "partitions" [("ID", .vstr "1"), ("STAT", .vlist [.vstr "x"])] =
      .error .attributeError ∧
    isOk (reduce "partitions" [("ID", .vstr "1"), ("STAT", .vlist [.vstr "x"])]) = false :=
  ⟨rfl, rfl⟩

/-- C2 counterexample: with a manager whose domus fetch succeeds with
one record but whose sensor-category fetch raises, `async_setup_entry`
propagates the exception: no entity list is produced at all, so the
other categories' entities are not created and the setup does crash. -/
theorem setup_crash_counterexample :
    setupEntry wsOneFail = .error .typeError ∧
    ∀ es : List Entity, setupEntry wsOneFail ≠ .ok es :=
  ⟨rfl, fun es h => by
    cases (Eq.trans (rfl : Except.error PyErr.typeError = setupEntry wsOneFail) h)⟩

/-- C2 (amended): during initial catalog setup a failing category
fetch is not isolated — as soon as one category's fetch raises (here
`POWER_LINES`, after domus succeeded), the exception propagates out of
`async_setup_entry`, no entities are registered, and the remaining
categories are not fetched (the conclusion holds for every behaviour
of the remaining fetches). -/
theorem setup_aborts_on_fetch_failure (ws : WSManager) (ds : List Value)
    (es : List Entity) (err : PyErr)
    (hd : ws.getDom = .ok ds) (hde : mkEntities "domus" ds = .ok es)
    (hp : ws.getSensor "POWER_LINES" = .error err) :
    setupEntry ws = .error err := by
  unfold setupEntry
  simp only [hd, hde, hp]

theorem setup_aborts_on_fetch_failure_witness :
    setupEntry { getDom := .ok [], getSensor := fun _ => .error .valueError,
                 getSystem := .ok [] } = .error PyErr.valueError :=
  setup_aborts_on_fetch_failure _ [] [] PyErr.valueError rfl rfl rfl

/-- C3 counterexample: the system branch removes every `+` character,
not only a leading sign: `TEMP.IN = "2+1.0"` parses to `21.0` (not to
the null the claim requires for a non-leading `+`). -/
theorem system_plus_midstring_parses :
    reduce "system" [("ID", .vstr "1"), ("TEMP", .vdict [("IN", .vstr "2+1.0")])] =
      .ok (.vstr "unknown", [("temp_in", .vnum (dec 21 0)), ("temp_out", .vnull)], 0) ∧
    Value.vnum (dec 21 0) ≠ Value.vnull :=
  ⟨rfl, fun h => Value.noConfusion h⟩

/-- C3 (amended): for every system-category record, `TEMP.IN` and
`TEMP.OUT` are parsed after removing every `+` character (wherever it
occurs) before float conversion, the state is the raw `ARM` field
defaulting to `"unknown"`, and the attributes are exactly
`{temp_in, temp_out}`. -/
theorem system_reduce_amended (r : Record) (tf : List (String × Value))
    (sIn sOut : String) (qIn qOut : Dec)
    (hT : recGetD r "TEMP" (.vdict []) = .vdict tf)
    (hIn : dictGet tf "IN" = some (.vstr sIn)) (hInne : sIn.isEmpty = false)
    (hOut : dictGet tf "OUT" = some (.vstr sOut)) (hOutne : sOut.isEmpty = false)
    (hpIn : parseFloat? (stripPlusAll sIn) = some qIn)
    (hpOut : parseFloat? (stripPlusAll sOut) = some qOut) :
    reduce "system" r =
      .ok (recGetD r "ARM" (.vstr "unknown"),
           [("temp_in", .vnum qIn), ("temp_out", .vnum qOut)], 0) := by
  have hIn' : tempField (.vdict tf) "IN" = .ok (some qIn) := by
    simp only [tempField, pyGetD, hIn, Option.getD_some, pyTruthy, hInne,
      Bool.not_false, if_true, hpIn]
  have hOut' : tempField (.vdict tf) "OUT" = .ok (some qOut) := by
    simp only [tempField, pyGetD, hOut, Option.getD_some, pyTruthy, hOutne,
      Bool.not_false, if_true, hpOut]
  rw [reduce_system_eq]
  simp only [reduceSystem, systemTemps, hT, hIn', hOut']
  rfl

theorem system_reduce_amended_witness :
    reduce "system" [("ID", .vstr "1"),
        ("TEMP", .vdict [("IN", .vstr "+21.0"), ("OUT", .vstr "5.5")]),
        ("ARM", .vstr "ARMED")] =
      .ok (.vstr "ARMED",
           [("temp_in", .vnum (dec 21 0)), ("temp_out", .vnum (dec 55 1))], 0) :=
  system_reduce_amended _ [("IN", .vstr "+21.0"), ("OUT", .vstr "5.5")]
    "+21.0" "5.5" (dec 21 0) (dec 55 1) rfl rfl rfl rfl rfl rfl rfl

theorem encAdd_some (a : Dec) (n : Nat) (v : Value) (q : Dec)
    (h : encParsed v = some q) : encAdd (a, n) v = (a.add q, n) := by
  unfold encParsed at h
  unfold encAdd
  cases hx : pyGetD v "ENC" (.vnum (Dec.ofInt 0)) with
  | error e => rw [hx] at h; cases h
  | ok e =>
    rw [hx] at h
    dsimp only at h
    dsimp only
    cases hf : pyFloat e with
    | error e2 => rw [hf] at h; cases h
    | ok q2 => rw [hf] at h; cases h; rfl

theorem encAdd_none (a : Dec) (n : Nat) (v : Value)
    (h : encParsed v = none) : encAdd (a, n) v = (a, n + 1) := by
  unfold encParsed at h
  unfold encAdd
  cases hx : pyGetD v "ENC" (.vnum (Dec.ofInt 0)) with
  | error e => rfl
  | ok e =>
    rw [hx] at h
    dsimp only at h
    dsimp only
    cases hf : pyFloat e with
    | error e2 => rfl
    | ok q2 => rw [hf] at h; cases h

theorem foldl_encAdd_fst (vs : List Value) (a : Dec) (n : Nat) :
    (vs.foldl encAdd (a, n)).1 =
      vs.foldl (fun b v =>
        match encParsed v with
        | some q => b.add q
        | none => b) a := by
  induction vs generalizing a n with
  | nil => rfl
  | cons v tail ih =>
    simp only [List.foldl_cons]
    cases hE : encParsed v with
    | some q => rw [encAdd_some a n v q hE, ih]
    | none => rw [encAdd_none a n v hE, ih]

/-- C4: for every partitions-category record, `total_consumption` is
the sum of the parsed `ENC` fields over every entry of the `VAL` array
inside the last element of the `STAT` array (a missing or empty `STAT`,
or a missing `VAL`, yields sum 0); the state is that sum when strictly
positive and otherwise the raw `STA` field defaulting to `"unknown"`;
the attributes are all original record fields with `total_consumption`
overlaid, always present, as a number. -/
theorem partitions_reduce (r : Record) (xs : List Value)
    (gs : List (String × Value)) (vs : List Value)
    (hstat : recGetD r "STAT" (.vlist []) = .vlist xs)
    (hlast : xs.getLast? = some (.vdict gs))
    (hval : (dictGet gs "VAL").getD (.vlist []) = .vlist vs) :
    (reduce "partitions" r =
      .ok ((if (sumENC vs).isPos then .vnum (sumENC vs)
            else recGetD r "STA" (.vstr "unknown")),
           dictSet r "total_consumption" (.vnum (sumENC vs)),
           (vs.foldl encAdd (Dec.ofInt 0, 0)).2)) ∧
    ∀ r' : Record, pyTruthy (recGetD r' "STAT" (.vlist [])) = false →
      reduce "partitions" r' =
        .ok (recGetD r' "STA" (.vstr "unknown"),
             dictSet r' "total_consumption" (.vnum (Dec.ofInt 0)), 0) := by
  constructor
  · have hxne : xs.isEmpty = false := by
      cases xs
      · cases hlast
      · rfl
    have hcond : pyTruthy (recGetD r "STAT" (.vlist [])) = true := by
      rw [hstat]
      simp [pyTruthy, hxne]
    have htot : partitionsTotal r = .ok (vs.foldl encAdd (Dec.ofInt 0, 0)) := by
      simp only [partitionsTotal]
      rw [if_pos hcond, hstat]
      simp only [pyLastIndex, hlast, pyGetD, hval, pyIter]
    rw [reduce_partitions_eq]
    unfold reducePartitions
    rw [htot]
    dsimp only
    rw [foldl_encAdd_fst]
    rfl
  · intro r' hf
    rw [reduce_partitions_eq]
    unfold reducePartitions partitionsTotal
    rw [if_neg (by simp [hf])]
    rfl

theorem partitions_reduce_witness :
    reduce "partitions" partRecEx =
      .ok (.vnum (dec 4 0),
           dictSet partRecEx "total_consumption" (.vnum (dec 4 0)), 0) ∧
    reduce "partitions" [("ID", .vstr "2"), ("STAT", .vlist []), ("STA", .vstr "idle")] =
      .ok (.vstr "idle",
           dictSet [("ID", .vstr "2"), ("STAT", .vlist []), ("STA", .vstr "idle")]
             "total_consumption" (.vnum (Dec.ofInt 0)), 0) := by
  have h := partitions_reduce partRecEx
    [.vdict [("OLD", .vstr "y")],
     .vdict [("VAL", .vlist [.vdict [("ENC", .vstr "1.5")], .vdict [("ENC", .vstr "2.5")]])]]
    [("VAL", .vlist [.vdict [("ENC", .vstr "1.5")], .vdict [("ENC", .vstr "2.5")]])]
    [.vdict [("ENC", .vstr "1.5")], .vdict [("ENC", .vstr "2.5")]]
    rfl rfl rfl
  exact ⟨h.1, h.2 _ rfl⟩

theorem toList_mk (l : List Char) : (String.mk l).toList = l := rfl

theorem plAccept_digits (s : String) (h : plAccept s = true) :
    (removeFirstDot s).isEmpty = false ∧
    ∀ c ∈ (removeFirstDot s).toList, c.isDigit = true := by
  unfold plAccept pyIsDigit at h
  rw [Bool.and_eq_true] at h
  refine ⟨?_, List.all_eq_true.mp h.2⟩
  have := h.1
  rwa [Bool.not_eq_true'] at this

theorem plAccept_false_of_mem (s : String) (c : Char)
    (hm : c ∈ (removeFirstDot s).toList) (hd : c.isDigit = false) :
    plAccept s = false := by
  cases hacc : plAccept s with
  | false => rfl
  | true =>
    obtain ⟨-, hall⟩ := plAccept_digits s hacc
    rw [hall c hm] at hd
    cases hd

theorem mem_removeFirstDotChars (c : Char) (l : List Char)
    (hc : c ≠ '.') (hm : c ∈ l) : c ∈ removeFirstDotChars l := by
  induction l with
  | nil => cases hm
  | cons d tail ih =>
    by_cases hd : d = '.'
    · subst hd
      simp only [removeFirstDotChars, if_pos rfl]
      rcases List.mem_cons.mp hm with h | h
      · exact absurd h hc
      · exact h
    · simp only [removeFirstDotChars, if_neg hd]
      rcases List.mem_cons.mp hm with h | h
      · subst h; exact List.mem_cons_self _ _
      · exact List.mem_cons_of_mem _ (ih h)

theorem dot_mem_removeFirstDotChars (l : List Char) (h : 2 ≤ l.count '.') :
    '.' ∈ removeFirstDotChars l := by
  induction l with
  | nil => simp at h
  | cons d tail ih =>
    by_cases hd : d = '.'
    · subst hd
      simp only [removeFirstDotChars, if_pos rfl]
      have hc : 0 < tail.count '.' := by
        rw [List.count_cons_self] at h
        omega
      exact List.count_pos_iff.mp hc
    · simp only [removeFirstDotChars, if_neg hd]
      refine List.mem_cons_of_mem _ (ih ?_)
      rwa [List.count_cons_of_ne (fun he => hd he.symm)] at h

/-- C5: the powerlines numeric-acceptance check
(`s.replace('.', '', 1).isdigit()`) accepts a string only if, with its
first `.` removed, it is non-empty and all digits; any string with two
or more decimal points, any character that is neither a digit nor `.`,
or a leading `-` is rejected; a rejected field parses to null; and with
`PCONS = "-5"` the powerlines state falls back to the `STATUS` field. -/
theorem powerlines_digit_gate :
    (∀ s : String, plAccept s = true →
       (removeFirstDot s).isEmpty = false ∧
       ∀ c ∈ (removeFirstDot s).toList, c.isDigit = true) ∧
    (∀ s : String, 2 ≤ s.toList.count '.' → plAccept s = false) ∧
    (∀ s : String, ∀ c ∈ s.toList, c.isDigit = false → c ≠ '.' → plAccept s = false) ∧
    (∀ s : String, ∀ rest, s.toList = '-' :: rest → plAccept s = false) ∧
    (∀ s : String, plAccept s = false → (plParse (.vstr s)).1 = none) ∧
    (∀ r : Record, ∀ st attrs n, recGet r "PCONS" = .vstr "-5" →
       reduce "powerlines" r = .ok (st, attrs, n) →
       st = recGetD r "STATUS" (.vstr "unknown")) := by
  have hmem : ∀ s : String, ∀ c ∈ s.toList, c.isDigit = false → c ≠ '.' →
      plAccept s = false := by
    intro s c hm hd hne
    refine plAccept_false_of_mem s c ?_ hd
    rw [removeFirstDot, toList_mk]
    exact mem_removeFirstDotChars c s.toList hne hm
  refine ⟨plAccept_digits, ?_, hmem, ?_, ?_, ?_⟩
  · intro s h
    refine plAccept_false_of_mem s '.' ?_ rfl
    rw [removeFirstDot, toList_mk]
    exact dot_mem_removeFirstDotChars s.toList h
  · intro s rest hs
    refine hmem s '-' ?_ rfl (by decide)
    rw [hs]
    exact List.mem_cons_self _ _
  · intro s h
    unfold plParse
    by_cases ht : pyTruthy (.vstr s) = true
    · rw [if_pos ht]
      dsimp only
      rw [if_neg (by simp [h])]
    · rw [if_neg ht]
  · intro r st attrs n hc hred
    have hpc : plParse (.vstr "-5") = (none, false) := rfl
    rw [reduce_powerlines_eq] at hred
    simp only [reducePowerlines, hc, hpc] at hred
    simp only [Except.ok.injEq, Prod.mk.injEq] at hred
    exact hred.1.symm

theorem powerlines_digit_gate_witness :
    plAccept "-5" = false ∧
    (∀ st attrs n,
      reduce "powerlines" [("ID", .vstr "1"), ("PCONS", .vstr "-5"), ("STATUS", .vstr "on")] =
        .ok (st, attrs, n) → st = .vstr "on") ∧
    plAccept "1.2.3" = false := by
  refine ⟨?_, ?_, ?_⟩
  · exact powerlines_digit_gate.2.2.2.1 "-5" ['5'] rfl
  · intro st attrs n h
    exact powerlines_digit_gate.2.2.2.2.2
      [("ID", .vstr "1"), ("PCONS", .vstr "-5"), ("STATUS", .vstr "on")]
      st attrs n rfl h
  · exact powerlines_digit_gate.2.1 "1.2.3" (by decide)

/-- C6: for every powerlines-category record whose `PCONS`/`PPROD`
pass the digit gate and parse, the state is the parsed `PCONS` value
and the attributes are exactly `{Consumo, Produzione, Status}` with the
parsed values and the raw `STATUS` field (defaulting to `"unknown"`);
the witness instantiates the spec's `PCONS="12.5"`, `PPROD="3"`,
`STATUS="on"` example. -/
theorem powerlines_reduce (r : Record) (sc sp : String) (qc qp : Dec)
    (hc : recGet r "PCONS" = .vstr sc) (hcne : sc.isEmpty = false)
    (hca : plAccept sc = true) (hcq : parseFloat? sc = some qc)
    (hp : recGet r "PPROD" = .vstr sp) (hpne : sp.isEmpty = false)
    (hpa : plAccept sp = true) (hpq : parseFloat? sp = some qp) :
    reduce "powerlines" r =
      .ok (.vnum qc,
           [("Consumo", .vnum qc), ("Produzione", .vnum qp),
            ("Status", recGetD r "STATUS" (.vstr "unknown"))], 0) := by
  have hpc : plParse (.vstr sc) = (some qc, false) := by
    simp only [plParse, pyTruthy, hcne, Bool.not_false, if_true, hca, hcq]
  have hpp : plParse (.vstr sp) = (some qp, false) := by
    simp only [plParse, pyTruthy, hpne, Bool.not_false, if_true, hpa, hpq]
  rw [reduce_powerlines_eq]
  simp only [reducePowerlines, hc, hp, hpc, hpp]
  rfl

theorem powerlines_reduce_witness :
    reduce "powerlines"
        [("ID", .vstr "1"), ("PCONS", .vstr "12.5"), ("PPROD", .vstr "3"),
         ("STATUS", .vstr "on")] =
      .ok (.vnum (dec 125 1),
           [("Consumo", .vnum (dec 125 1)), ("Produzione", .vnum (dec 3 0)),
            ("Status", .vstr "on")], 0) :=
  powerlines_reduce _ "12.5" "3" (dec 125 1) (dec 3 0)
    rfl rfl rfl rfl rfl rfl rfl rfl

/-- C8: for every numeric field (`TEMP.IN`, `TEMP.OUT`, `PCONS` and
`PPROD` via the shared powerlines parser, domus `T`, domus `H`), a
field present but equal to the empty string is treated as absent: the
parsed value is null and no parse error is raised or logged for it. -/
theorem empty_string_fields_null :
    (∀ r : Record, ∀ tf, recGetD r "TEMP" (.vdict []) = .vdict tf →
       dictGet tf "IN" = some (.vstr "") → (systemTemps r).1 = none) ∧
    (∀ r : Record, ∀ tf, recGetD r "TEMP" (.vdict []) = .vdict tf →
       dictGet tf "IN" = some (.vstr "") → dictGet tf "OUT" = some (.vstr "") →
       systemTemps r = (none, none, false)) ∧
    plParse (.vstr "") = (none, false) ∧
    (∀ r : Record, recGet r "T" = .vstr "" → domusT r = (none, false)) ∧
    (∀ r : Record, recGet r "H" = .vstr "" → domusH r = (none, false)) := by
  have hin : ∀ tf k, dictGet tf k = some (.vstr "") →
      tempField (.vdict tf) k = .ok none := by
    intro tf k hk
    simp only [tempField, pyGetD, hk, Option.getD_some]
    rfl
  refine ⟨?_, ?_, rfl, ?_, ?_⟩
  · intro r tf hT hIn
    simp only [systemTemps, hT, hin tf "IN" hIn]
    cases h2 : tempField (.vdict tf) "OUT" with
    | error e => rfl
    | ok to_ => rfl
  · intro r tf hT hIn hOut
    simp only [systemTemps, hT, hin tf "IN" hIn, hin tf "OUT" hOut]
  · intro r hT
    simp only [domusT, hT]
    rfl
  · intro r hH
    simp only [domusH, hH]
    rfl

theorem empty_string_fields_null_witness :
    systemTemps [("TEMP", .vdict [("IN", .vstr ""), ("OUT", .vstr "")])] =
      (none, none, false) ∧
    domusT [("T", .vstr "")] = (none, false) ∧
    domusH [("H", .vstr "")] = (none, false) :=
  ⟨empty_string_fields_null.2.1 _ [("IN", .vstr ""), ("OUT", .vstr "")] rfl rfl rfl,
   empty_string_fields_null.2.2.2.1 _ rfl,
   empty_string_fields_null.2.2.2.2 _ rfl⟩

end Ksenia
